import Mathlib

/-!
Shallow embedding of the payment-completion and enrollment-consistency
subsystem of the lms-backend repository.

Sources embedded:
- the Sequelize data model (Course, Payment, Enrollment definitions);
- `router.post('/webhook')` in src/routes/payments.js: signature
  verification via the provider library, then — for a
  `checkout.session.completed` event — course lookup, fee computation
  (`course.price * 0.15`), `Payment.create`, `Enrollment.create`,
  `course.enrollmentCount += 1; course.save()`, all inside one try/catch
  that logs and falls through to `res.json(received true)`;
- `router.post('/create-checkout')` in the same file.

Modelling choices:
- DECIMAL columns and JS numbers are embedded as exact rationals (ℚ):
  an idealization of the source's IEEE-754 double arithmetic, exact at
  every concrete amount the theorems evaluate but not at arbitrary
  prices, so no theorem asserts an exact arithmetic identity of the fee
  split over all amounts;
- UUIDs and provider identifiers are Strings;
- the durable store is a triple of lists; each `await`ed repository call
  commits individually (the source opens no transaction);
- transient storage failures are injected through a `fail` oracle telling
  which repository call raises `StorageError`; the raised error is caught
  by the handler's catch block, so the effects committed before the raise
  survive, exactly as in the source;
- the provider's `constructEvent` is external: its outcome is a parameter
  of type `Except String StripeEvent` (error message on failure, as the
  source interpolates `err.message` into the 400 response body);
- concurrency is modelled separately by a small-step machine whose atomic
  steps are the `await` points of the handler, interleaved by a schedule.
-/

namespace LmsBackend

/-- Course row (Sequelize model `Course`): only the columns the payments
routes read or write, plus identity. `price` is DECIMAL(10,2). -/
structure Course where
  id : String
  title : String
  description : String
  price : ℚ
  thumbnail : Option String
  enrollmentCount : Nat
  instructorId : String
deriving DecidableEq, Repr

/-- Payment row (Sequelize model `Payment`), with exactly the fields the
webhook handler's `Payment.create` sets. `transactionId` is a plain STRING
column with no unique constraint in the model. -/
structure Payment where
  studentId : String
  courseId : String
  instructorId : String
  amount : ℚ
  currency : String
  paymentMethod : String
  transactionId : String
  status : String
  platformFee : ℚ
  instructorPayout : ℚ
deriving DecidableEq, Repr

/-- Enrollment row (Sequelize model `Enrollment`). The model declares no
unique index on (studentId, courseId). `completedAt` and `lastAccessedAt`
default to NULL. -/
structure Enrollment where
  studentId : String
  courseId : String
  progress : ℚ
  completedAt : Option String
  lastAccessedAt : Option String
deriving DecidableEq, Repr

/-- The durable store: the three tables this subsystem touches. -/
structure DB where
  courses : List Course
  payments : List Payment
  enrollments : List Enrollment
deriving DecidableEq, Repr

/-- `Course.findByPk(courseId)`. -/
def findByPk (db : DB) (courseId : String) : Option Course :=
  db.courses.find? (fun c => c.id = courseId)

/-- `Enrollment.findOne(where: studentId, courseId)`. -/
def findEnrollment (db : DB) (studentId courseId : String) : Option Enrollment :=
  db.enrollments.find? (fun e => e.studentId = studentId && e.courseId = courseId)

/-- `course.save()`: writes the in-memory instance back over the row with
the same primary key. -/
def saveCourse (db : DB) (c : Course) : DB :=
  { db with courses := db.courses.map (fun x => if x.id = c.id then c else x) }

/-- `session.metadata` as set by create-checkout and read by the webhook. -/
structure SessionMeta where
  courseId : String
  studentId : String
  instructorId : String
deriving DecidableEq, Repr

/-- The provider's checkout-session object (`event.data.object`).
`amount_total` is the amount the customer actually paid; the webhook
handler never reads it. `payment_intent` is the transaction identifier. -/
structure CheckoutSession where
  metadata : SessionMeta
  payment_intent : String
  amount_total : ℚ
deriving DecidableEq, Repr

/-- `event.data`. -/
structure EventData where
  object : CheckoutSession
deriving DecidableEq, Repr

/-- A verified provider event. -/
structure StripeEvent where
  type : String
  data : EventData
deriving DecidableEq, Repr

/-- Line `const platformFee = course.price * 0.15;` — a bare
multiplication, no rounding to the currency unit. The source evaluates it
in JS IEEE-754 double arithmetic; here it is idealized as exact rational
arithmetic. The idealization is exact at the amounts the theorems below
evaluate (10, 100, 10000: at those inputs the double computation rounds
to the same values), but not at every DECIMAL(10,2) price — e.g. at
100.01 the double result differs from the rational one, so no theorem in
this file asserts an exactness property of the split for all amounts. -/
def platformFee (amount : ℚ) : ℚ :=
  amount * (15 / 100)

/-- Line `const instructorPayout = course.price - platformFee;`, under
the same rational idealization of JS double arithmetic as `platformFee`
(exact at the concrete amounts used by the theorems, not in general). -/
def instructorPayout (amount : ℚ) : ℚ :=
  amount - platformFee amount

/-- The record passed to `Payment.create` by the webhook handler. -/
def mkPayment (course : Course) (s : CheckoutSession) : Payment :=
  { studentId := s.metadata.studentId
    courseId := s.metadata.courseId
    instructorId := s.metadata.instructorId
    amount := course.price
    currency := "USD"
    paymentMethod := "stripe"
    transactionId := s.payment_intent
    status := "completed"
    platformFee := platformFee course.price
    instructorPayout := instructorPayout course.price }

/-- The record passed to `Enrollment.create` by the webhook handler:
progress 0, the date columns left NULL. -/
def mkEnrollment (s : CheckoutSession) : Enrollment :=
  { studentId := s.metadata.studentId
    courseId := s.metadata.courseId
    progress := 0
    completedAt := none
    lastAccessedAt := none }

/-- The four `await`ed repository calls inside the webhook's try block,
in source order. -/
inductive StorageOp
  | findByPkOp
  | paymentCreateOp
  | enrollmentCreateOp
  | courseSaveOp
deriving DecidableEq, Repr

/-- The try block of the webhook's `checkout.session.completed` branch.
`fail op = true` means that repository call raises a transient
`StorageError`; the surrounding catch block swallows it, so the writes
already committed stay (the source wraps nothing in a transaction).
Returns the resulting store and the list of repository calls attempted.
A `null` course makes `course.price` raise a TypeError, which the same
catch block swallows. -/
def processCompleted (fail : StorageOp → Bool) (s : CheckoutSession) (db : DB) :
    DB × List StorageOp :=
  if fail .findByPkOp then (db, [.findByPkOp]) else
  match findByPk db s.metadata.courseId with
  | none => (db, [.findByPkOp])
  | some course =>
    if fail .paymentCreateOp then (db, [.findByPkOp, .paymentCreateOp]) else
    let db1 : DB := { db with payments := db.payments ++ [mkPayment course s] }
    if fail .enrollmentCreateOp then
      (db1, [.findByPkOp, .paymentCreateOp, .enrollmentCreateOp]) else
    let db2 : DB := { db1 with enrollments := db1.enrollments ++ [mkEnrollment s] }
    if fail .courseSaveOp then
      (db2, [.findByPkOp, .paymentCreateOp, .enrollmentCreateOp, .courseSaveOp]) else
    (saveCourse db2 { course with enrollmentCount := course.enrollmentCount + 1 },
     [.findByPkOp, .paymentCreateOp, .enrollmentCreateOp, .courseSaveOp])

/-- The webhook endpoint's HTTP response. `webhookError msg` is the
`res.status(400).send(...)` path; `received` is `res.json(received true)`
with status 200. -/
inductive WebhookResponse
  | webhookError (msg : String)
  | received
deriving DecidableEq, Repr

/-- HTTP status code of the response. -/
def WebhookResponse.status : WebhookResponse → Nat
  | .webhookError _ => 400
  | .received => 200

/-- Response body text: the template literal on the 400 path, the JSON
object on the 200 path. -/
def WebhookResponse.body : WebhookResponse → String
  | .webhookError msg => "Webhook Error: " ++ msg
  | .received => "\x7b\x22received\x22:true\x7d"

/-- `router.post('/webhook')`: verification outcome first (400 with the
library's error message on failure), then the completed branch for
`checkout.session.completed`, any other event type acknowledged with no
effect; always 200 `received: true` at the end of the handler.
Returns (response, resulting store, repository calls performed). -/
def webhook (verif : Except String StripeEvent) (fail : StorageOp → Bool) (db : DB) :
    WebhookResponse × DB × List StorageOp :=
  match verif with
  | .error msg => (.webhookError msg, db, [])
  | .ok ev =>
    if ev.type = "checkout.session.completed" then
      let r := processCompleted fail ev.data.object db
      (.received, r.1, r.2)
    else
      (.received, db, [])

/-- Response of `router.post('/create-checkout')`. -/
inductive CheckoutResponse
  | courseNotFound
  | alreadyEnrolled
  | sessionUrl (url : String)
  | checkoutFailed
deriving DecidableEq, Repr

/-- HTTP status code of the checkout response. -/
def CheckoutResponse.status : CheckoutResponse → Nat
  | .courseNotFound => 404
  | .alreadyEnrolled => 400
  | .sessionUrl _ => 200
  | .checkoutFailed => 500

/-- The `message` field of the JSON body, empty on the success path
(which carries `sessionUrl` instead). -/
def CheckoutResponse.message : CheckoutResponse → String
  | .courseNotFound => "Course not found"
  | .alreadyEnrolled => "Already enrolled"
  | .sessionUrl _ => ""
  | .checkoutFailed => "Checkout failed"

/-- `router.post('/create-checkout')` for an authenticated student
`userId`: look up the course (404 if absent), look for an existing
enrollment of (userId, courseId) (400 "Already enrolled" if present),
then call `stripe.checkout.sessions.create`, an external request whose
outcome is the `stripeSession` parameter (session URL, or an error that the
catch block turns into 500). The Bool in the result records whether the
external checkout-session request was issued. The endpoint writes nothing
to the store. -/
def createCheckout (userId courseId : String) (stripeSession : Except Unit String)
    (db : DB) : CheckoutResponse × Bool :=
  match findByPk db courseId with
  | none => (.courseNotFound, false)
  | some _ =>
    match findEnrollment db userId courseId with
    | some _ => (.alreadyEnrolled, false)
    | none =>
      match stripeSession with
      | .ok url => (.sessionUrl url, true)
      | .error _ => (.checkoutFailed, true)

/-!
Small-step model of concurrent webhook invocations, for the
enrollment-counter claims. One in-flight invocation of the completed
branch is a program counter plus the course instance its `findByPk`
returned — the source mutates that in-memory snapshot
(`course.enrollmentCount += 1`) and then issues `course.save()`, so the
written counter value is snapshot-based. The atomic steps are exactly
the `await` points of the handler; a schedule interleaves two
invocations. No storage faults are injected here.
-/

/-- One in-flight invocation of the webhook's completed branch.
pc 0: about to `findByPk`; pc 1: about to `Payment.create`;
pc 2: about to `Enrollment.create`; pc 3: about to `course.save()`;
pc 4: done (also reached by the caught TypeError when the course was
null). `snap` is the instance returned by this invocation's own
`findByPk`. -/
structure Inflight where
  s : CheckoutSession
  pc : Nat
  snap : Option Course
deriving DecidableEq, Repr

/-- A fresh invocation for session `s`. -/
def initInflight (s : CheckoutSession) : Inflight :=
  { s := s, pc := 0, snap := none }

/-- One atomic step of an in-flight invocation against the store. -/
def stepInflight (iv : Inflight) (db : DB) : Inflight × DB :=
  match iv.pc with
  | 0 => ({ iv with pc := 1, snap := findByPk db iv.s.metadata.courseId }, db)
  | 1 =>
    match iv.snap with
    | none => ({ iv with pc := 4 }, db)
    | some course =>
      ({ iv with pc := 2 }, { db with payments := db.payments ++ [mkPayment course iv.s] })
  | 2 => ({ iv with pc := 3 }, { db with enrollments := db.enrollments ++ [mkEnrollment iv.s] })
  | 3 =>
    match iv.snap with
    | none => ({ iv with pc := 4 }, db)
    | some course =>
      ({ iv with pc := 4 },
       saveCourse db { course with enrollmentCount := course.enrollmentCount + 1 })
  | _ => (iv, db)

/-- Two concurrent invocations sharing the store. -/
structure Sys2 where
  a : Inflight
  b : Inflight
  db : DB
deriving DecidableEq, Repr

/-- Let invocation `a` (true) or `b` (false) take one step. -/
def step2 (t : Bool) (sys : Sys2) : Sys2 :=
  if t then
    let r := stepInflight sys.a sys.db
    { sys with a := r.1, db := r.2 }
  else
    let r := stepInflight sys.b sys.db
    { sys with b := r.1, db := r.2 }

/-- Run two concurrent invocations under a schedule. -/
def run2 (sched : List Bool) (sys : Sys2) : Sys2 :=
  sched.foldl (fun s t => step2 t s) sys

/-!
Concrete fixtures used by the claim theorems: one course priced 100 with
enrollmentCount 0, and completed-checkout sessions for it.
-/

/-- A course priced 100 with no enrollments yet. -/
def courseC1 : Course :=
  { id := "c1", title := "Course One", description := "desc", price := 100,
    thumbnail := none, enrollmentCount := 0, instructorId := "i1" }

/-- Initial store: just `courseC1`, no payments, no enrollments. -/
def dbInit : DB :=
  { courses := [courseC1], payments := [], enrollments := [] }

/-- Completed checkout of student s1 for course c1, transaction pi_1. -/
def sessionA : CheckoutSession :=
  { metadata := { courseId := "c1", studentId := "s1", instructorId := "i1" },
    payment_intent := "pi_1", amount_total := 100 }

/-- Completed checkout of a different student s2 for the same course,
distinct transaction pi_2. -/
def sessionB : CheckoutSession :=
  { metadata := { courseId := "c1", studentId := "s2", instructorId := "i1" },
    payment_intent := "pi_2", amount_total := 100 }

/-- A second purchase by the same (s1, c1) pair under a distinct
transaction pi_3. -/
def sessionA2 : CheckoutSession :=
  { metadata := { courseId := "c1", studentId := "s1", instructorId := "i1" },
    payment_intent := "pi_3", amount_total := 100 }

/-- A completed checkout whose paid amount (5) differs from the course
price (100). -/
def sessionMismatch : CheckoutSession :=
  { metadata := { courseId := "c1", studentId := "s3", instructorId := "i1" },
    payment_intent := "pi_4", amount_total := 5 }

/-- Verified completed event for `sessionA`. -/
def eventA : StripeEvent :=
  { type := "checkout.session.completed", data := { object := sessionA } }

/-- Verified completed event for `sessionB`. -/
def eventB : StripeEvent :=
  { type := "checkout.session.completed", data := { object := sessionB } }

/-- Verified completed event for `sessionA2`. -/
def eventA2 : StripeEvent :=
  { type := "checkout.session.completed", data := { object := sessionA2 } }

/-- Verified completed event for `sessionMismatch`. -/
def eventMismatch : StripeEvent :=
  { type := "checkout.session.completed", data := { object := sessionMismatch } }

/-- No storage fault. -/
def noFault : StorageOp → Bool := fun _ => false

/-- Exactly the given repository call raises `StorageError`. -/
def failAt (op : StorageOp) : StorageOp → Bool := fun x => x == op

/-- Claim C1: redelivering a completed event with an already-processed
transactionId is claimed to create no additional Payment or Enrollment
rows and no further counter increments. The handler has no idempotency
check and the Payment model's transactionId column has no unique
constraint, so the second delivery of the very same event (transaction
pi_1) creates a second Payment row with the same transactionId, a second
Enrollment row, and increments the counter again. -/
theorem webhook_redelivery_duplicates_effects :
    (webhook (Except.ok eventA) noFault dbInit).2.1.payments.length = 1
    ∧ (webhook (Except.ok eventA) noFault dbInit).2.1.enrollments.length = 1
    ∧ (findByPk (webhook (Except.ok eventA) noFault dbInit).2.1 "c1").map
        Course.enrollmentCount = some 1
    ∧ (webhook (Except.ok eventA) noFault
        (webhook (Except.ok eventA) noFault dbInit).2.1).2.1.payments.length = 2
    ∧ (webhook (Except.ok eventA) noFault
        (webhook (Except.ok eventA) noFault dbInit).2.1).2.1.payments.map
        Payment.transactionId = ["pi_1", "pi_1"]
    ∧ (webhook (Except.ok eventA) noFault
        (webhook (Except.ok eventA) noFault dbInit).2.1).2.1.enrollments.length = 2
    ∧ (findByPk (webhook (Except.ok eventA) noFault
        (webhook (Except.ok eventA) noFault dbInit).2.1).2.1 "c1").map
        Course.enrollmentCount = some 2 := by
  decide

/-- Claim C2: the four writes of the completed branch are claimed to be
one atomic unit. The source opens no transaction: when the Enrollment
insert raises a transient StorageError, the already-committed Payment row
survives with no Enrollment row for it and no counter increment — a
partial state the claim says can never persist. -/
theorem webhook_partial_commit_on_enrollment_failure :
    (webhook (Except.ok eventA) (failAt StorageOp.enrollmentCreateOp) dbInit).2.1.payments.length = 1
    ∧ (webhook (Except.ok eventA) (failAt StorageOp.enrollmentCreateOp) dbInit).2.1.enrollments = []
    ∧ (findByPk (webhook (Except.ok eventA) (failAt StorageOp.enrollmentCreateOp) dbInit).2.1 "c1").map
        Course.enrollmentCount = some 0 := by
  decide

/-- Claim C3: an event whose paid amount differs from the course price is
claimed to be rejected with AmountMismatchError and to produce no rows.
The handler never reads the event's amount: the event paying 5 for the
course priced 100 is processed normally, a Payment row (with amount set
to the course price, not the paid amount) and an Enrollment row are
created, and the event is acknowledged. -/
theorem webhook_ignores_amount_mismatch :
    sessionMismatch.amount_total ≠ courseC1.price
    ∧ (webhook (Except.ok eventMismatch) noFault dbInit).1 = WebhookResponse.received
    ∧ (webhook (Except.ok eventMismatch) noFault dbInit).2.1.payments.map Payment.amount = [100]
    ∧ (webhook (Except.ok eventMismatch) noFault dbInit).2.1.enrollments.length = 1 := by
  decide

/-- Claim C4: at most one Enrollment per (studentId, courseId) pair,
claimed to be enforced before every creation. The webhook's completed
branch calls `Enrollment.create` without any existence check, and the
model has no unique index on the pair: two completed events with
distinct transactionIds for the same (s1, c1) pair leave two Enrollment
rows for that pair. -/
theorem webhook_creates_duplicate_enrollment_for_pair :
    ((webhook (Except.ok eventA2) noFault
        (webhook (Except.ok eventA) noFault dbInit).2.1).2.1.enrollments.filter
      (fun e => e.studentId = "s1" && e.courseId = "c1")).length = 2 := by
  decide

/-- Claim C5: the platform fee is claimed to be `round(amount * 0.15)`
in fixed-point arithmetic. The source computes `course.price * 0.15` with
no rounding at all: at amount 10 it yields 3/2, not
`round(10 * 0.15) = 2`. At this input the double computation is exact
(10 times the double nearest 0.15 rounds to exactly 1.5), so the rational
value 3/2 is the value the program computes. The claim's further
guarantee — `platformFee + instructorPayout = amount` exactly for every
amount — also fails in the source's double arithmetic (e.g. at amount
100.01 the sum is off by about 1.4e-14) and is deliberately not asserted
here, since exact rationals cannot witness float behavior faithfully. -/
theorem platformFee_not_rounded :
    platformFee 10 ≠ ((round ((10 : ℚ) * (15 / 100)) : ℤ) : ℚ) := by
  norm_num [platformFee, round_eq]

/-- Claim C6: on a transient storage failure the endpoint is claimed to
answer non-2xx so the provider redelivers. The catch block swallows the
StorageError raised by the Payment insert and the handler still answers
200 with the `received: true` body. -/
theorem webhook_acknowledges_storage_failure :
    (webhook (Except.ok eventA) (failAt StorageOp.paymentCreateOp) dbInit).1
        = WebhookResponse.received
    ∧ (webhook (Except.ok eventA) (failAt StorageOp.paymentCreateOp) dbInit).1.status = 200
    ∧ (webhook (Except.ok eventA) (failAt StorageOp.paymentCreateOp) dbInit).1.body
        = "\x7b\x22received\x22:true\x7d" := by
  decide

/-- Claim C7: after two successful distinct completions for the same
course, enrollmentCount is claimed to reach initial value + 2 even under
concurrency, via a transactional increment. The source does a
non-transactional read-then-write (`course.enrollmentCount += 1` on the
instance read by this invocation's findByPk, then `course.save()`): under
the schedule where both invocations read the course before either saves,
both complete (pc 4), both Payment and both Enrollment rows exist, yet
enrollmentCount ends at 1, not 0 + 2 — a lost update. -/
theorem concurrent_increments_lose_update :
    (run2 [true, false, true, true, true, false, false, false]
        { a := initInflight sessionA, b := initInflight sessionB, db := dbInit }).a.pc = 4
    ∧ (run2 [true, false, true, true, true, false, false, false]
        { a := initInflight sessionA, b := initInflight sessionB, db := dbInit }).b.pc = 4
    ∧ (run2 [true, false, true, true, true, false, false, false]
        { a := initInflight sessionA, b := initInflight sessionB, db := dbInit }).db.payments.length = 2
    ∧ (run2 [true, false, true, true, true, false, false, false]
        { a := initInflight sessionA, b := initInflight sessionB, db := dbInit }).db.enrollments.length = 2
    ∧ (findByPk (run2 [true, false, true, true, true, false, false, false]
        { a := initInflight sessionA, b := initInflight sessionB, db := dbInit }).db "c1").map
        Course.enrollmentCount = some 1 := by
  decide

/-- Claim C8: a webhook request failing signature verification is
answered 4xx with no side effects: the store is returned unchanged and no
repository call is performed, for every message, fault oracle and store. -/
theorem webhook_bad_signature_no_side_effects (msg : String) (fail : StorageOp → Bool)
    (db : DB) :
    webhook (Except.error msg) fail db = (WebhookResponse.webhookError msg, db, [])
    ∧ (webhook (Except.error msg) fail db).1.status = 400 := by
  exact ⟨rfl, rfl⟩

/-- Claim C9, counterexample: verification failures are claimed to
receive observably identical responses regardless of the reason. The
source interpolates the verifier's error message into the 400 body, and
the provider library reports bad signatures and stale timestamps with
different messages, so the two responses differ. -/
theorem webhook_error_reveals_reason :
    (webhook (Except.error "No signatures found matching the expected signature for payload")
        noFault dbInit).1
      ≠ (webhook (Except.error "Timestamp outside the tolerance zone") noFault dbInit).1 := by
  decide

/-- Claim C9, amended: every verification failure is answered with status
400 and body `Webhook Error: ` followed by the verifier's error message;
two failing requests receive identical responses exactly when the
verifier produced identical messages, so the response reveals whatever
the message reveals about the failure reason. -/
theorem webhook_error_response_determined_by_message (m1 m2 : String)
    (f1 f2 : StorageOp → Bool) (db1 db2 : DB) :
    (webhook (Except.error m1) f1 db1).1.status = 400
    ∧ (webhook (Except.error m1) f1 db1).1.body = "Webhook Error: " ++ m1
    ∧ ((webhook (Except.error m1) f1 db1).1 = (webhook (Except.error m2) f2 db2).1 ↔ m1 = m2) := by
  refine ⟨rfl, rfl, ?_⟩
  show WebhookResponse.webhookError m1 = WebhookResponse.webhookError m2 ↔ m1 = m2
  simp

/-- Claim C10: when the course exists and an Enrollment for the
(student, course) pair already exists, create-checkout answers 400 with
message "Already enrolled" and never issues the external
checkout-session request, whatever that request would have returned. -/
theorem createCheckout_already_enrolled_no_session (userId courseId : String)
    (stripeSession : Except Unit String) (db : DB) (course : Course) (e : Enrollment)
    (hc : findByPk db courseId = some course)
    (he : findEnrollment db userId courseId = some e) :
    createCheckout userId courseId stripeSession db = (CheckoutResponse.alreadyEnrolled, false)
    ∧ (createCheckout userId courseId stripeSession db).1.status = 400
    ∧ (createCheckout userId courseId stripeSession db).1.message = "Already enrolled" := by
  simp [createCheckout, hc, he, CheckoutResponse.status, CheckoutResponse.message]

/-- Witness for C10: in the store where s1 is already enrolled in c1, the
checkout request by s1 for c1 is refused with 400 "Already enrolled" and
no session is created. -/
theorem createCheckout_already_enrolled_no_session_witness :
    createCheckout "s1" "c1" (Except.ok "https://pay.example/session")
        { courses := [courseC1], payments := [], enrollments := [mkEnrollment sessionA] }
      = (CheckoutResponse.alreadyEnrolled, false)
    ∧ (createCheckout "s1" "c1" (Except.ok "https://pay.example/session")
        { courses := [courseC1], payments := [], enrollments := [mkEnrollment sessionA] }).1.status = 400
    ∧ (createCheckout "s1" "c1" (Except.ok "https://pay.example/session")
        { courses := [courseC1], payments := [], enrollments := [mkEnrollment sessionA] }).1.message
      = "Already enrolled" :=
  createCheckout_already_enrolled_no_session "s1" "c1" (Except.ok "https://pay.example/session")
    { courses := [courseC1], payments := [], enrollments := [mkEnrollment sessionA] }
    courseC1 (mkEnrollment sessionA) rfl rfl

end LmsBackend
